import Mathlib

/-!
Verification of the CalibNet training script (`train.py`).

The script orchestrates an iterative camera–LiDAR calibration refinement:
per batch it runs a fixed number of inner iterations, each predicting a
6-DoF twist with the network, mapping it through the SE(3) exponential and
reprojecting the running point cloud into a new semi-dense depth image.
The network, the exponential map, the depth-image generator and the loss
functions live in other modules (`CalibNet.py`, `utils/`, `loss.py`) and are
treated here as parameters of the script; the embedding below translates
the control flow of `train.py` itself: the `val` function (lines 56-90),
the inner loops and loss combination of `train` (lines 93-178), the
checkpoint save/resume logic, the device fallback, and the data-loader
setup of the `__main__` block (lines 183-210).

Tensors of a whole batch are kept abstract (type parameters `Img`, `Depth`,
`PCD`, `Twist`, `Transform`); the per-element intrinsics tensor
`batch[InTran]` is modelled as a function from the element index, so that
the script's `batch[InTran][0]` is total indexing.  Scalar losses are
rationals.  The ambient autograd mode of PyTorch is modelled as a boolean
flag threaded into every network call.
-/

set_option autoImplicit false

namespace CalibNetTrain

/-- Reduction mode of `ChamferDistanceLoss` (the string argument of its
constructor in `loss.py`). -/
inductive Reduction where
  | sum
  | mean
deriving DecidableEq, Repr

/-- Observable events of one batch of the refinement pipeline: a network
call (`predict`, recording the ambient autograd mode), an SE(3) exponential
(`expMap`), and a depth-generator application (`reproject`, recording which
intrinsics matrix the generator was built from). -/
inductive Event (K : Type) where
  | predict (grad : Bool)
  | expMap
  | reproject (intrinsics : K)
deriving DecidableEq, Repr

/-- External collaborators of `train.py`, kept opaque: the CalibNet network
(`model`, taking its parameters, the ambient autograd mode, the RGB image
and the current depth image, and returning the concatenated twist of
line 77), the SE(3) exponential `utils.se3.exp`, batched matrix product
`Tensor.bmm` (pure: it returns the product and mutates nothing), the depth
image generator `utils.transform.DepthImgGenerator` (fixed image shape and
pooling folded in; its first argument is the intrinsics the generator was
constructed from), and `torch.eye(4).repeat(B,1,1)`. -/
structure Ops (P Img Depth PCD Twist Transform K : Type) where
  model : P → Bool → Img → Depth → Twist
  se3exp : Twist → Transform
  bmm : Transform → Transform → Transform
  depthGen : K → Transform → PCD → Depth × PCD
  eye : Transform

/-- Scalar semantics of the loss module: `Photo_Loss(scale).forward`,
`ChamferDistanceLoss(scale, reduction).forward` and `geodesic_distance`. -/
structure LossSem (Depth PCD Transform : Type) where
  photo : ℚ → Depth → Depth → ℚ
  chamfer : ℚ → Reduction → PCD → PCD → ℚ
  geo : Transform → Transform → ℚ × ℚ

/-- One batch record as consumed by `train.py`: reference image, calibrated
depth image and point cloud, the uncalibrated (miscalibrated) point cloud
and depth image, the inverse ground-truth transform `igt`, and the
per-element intrinsics tensor `InTran` (indexed by batch element). -/
structure Batch (Img Depth PCD Transform K : Type) where
  img : Img
  depth_img : Depth
  pcd : PCD
  uncalibed_pcd : PCD
  uncalibed_depth_img : Depth
  igt : Transform
  InTran : Nat → K

/-- The mutable state of one inner refinement iteration of `val`: the
running depth image, the running point cloud, and the accumulated
transform `g0`. -/
structure IterState (Depth PCD Transform : Type) where
  depth : Depth
  pcd : PCD
  g0 : Transform
deriving DecidableEq, Repr

/-- Semantics of the `@torch.no_grad()` decorator (line 56): the decorated
body runs with gradient recording disabled for its whole extent. -/
def noGrad {A : Type} (body : Bool → A) : A :=
  body false

variable {P O Img Depth PCD Twist Transform K : Type}

/-- One inner iteration of `val` (lines 76-79), parameterized by the
ambient autograd mode `grad`: call the network on the current depth image,
exponentiate the twist, reproject the point cloud with the incremental
transform.  Line 79 reads `g0.bmm(extran)`: `bmm` is pure and its result is
not assigned, exactly as in the source, so the stored `g0` is returned
unchanged. -/
def valStepG (ops : Ops P Img Depth PCD Twist Transform K) (p : P) (grad : Bool)
    (k : K) (rgb : Img) (st : IterState Depth PCD Transform) :
    IterState Depth PCD Transform × List (Event K) :=
  let twist := ops.model p grad rgb st.depth
  let extran := ops.se3exp twist
  let dp := ops.depthGen k extran st.pcd
  let _discarded := ops.bmm st.g0 extran
  (⟨dp.1, dp.2, st.g0⟩, [Event.predict grad, Event.expMap, Event.reproject k])

/-- The inner loop of `val` (line 75): `for _ in range(args.inner_iter)`,
collecting the event trace of every iteration in order. -/
def valLoopG (ops : Ops P Img Depth PCD Twist Transform K) (p : P) (grad : Bool)
    (k : K) (rgb : Img) :
    Nat → IterState Depth PCD Transform →
    IterState Depth PCD Transform × List (Event K)
  | 0, st => (st, [])
  | n + 1, st =>
    let r1 := valStepG ops p grad k rgb st
    let r2 := valLoopG ops p grad k rgb n r1.1
    (r2.1, r1.2 ++ r2.2)

/-- The inner loop of `val` with the spec's Compose rule in place of
line 79, for comparison with the code: the accumulated transform is
right-multiplied by the incremental transform each iteration
(accumulated = accumulated · incremental). -/
def valLoopCompose (ops : Ops P Img Depth PCD Twist Transform K) (p : P) (grad : Bool)
    (k : K) (rgb : Img) :
    Nat → IterState Depth PCD Transform → IterState Depth PCD Transform
  | 0, st => st
  | n + 1, st =>
    let twist := ops.model p grad rgb st.depth
    let extran := ops.se3exp twist
    let dp := ops.depthGen k extran st.pcd
    valLoopCompose ops p grad k rgb n ⟨dp.1, dp.2, ops.bmm st.g0 extran⟩

/-- One inner iteration of `train` (lines 142-144): identical to `val`'s
step except that no accumulated transform exists and autograd is enabled
(the loop is not under `no_grad`). -/
def trainStep (ops : Ops P Img Depth PCD Twist Transform K) (p : P)
    (k : K) (rgb : Img) (st : Depth × PCD) : (Depth × PCD) × List (Event K) :=
  let twist := ops.model p true rgb st.1
  let extran := ops.se3exp twist
  (ops.depthGen k extran st.2, [Event.predict true, Event.expMap, Event.reproject k])

/-- The inner loop of `train` (line 141): `for _ in range(args.inner_iter)`. -/
def trainLoop (ops : Ops P Img Depth PCD Twist Transform K) (p : P)
    (k : K) (rgb : Img) :
    Nat → Depth × PCD → (Depth × PCD) × List (Event K)
  | 0, st => (st, [])
  | n + 1, st =>
    let r1 := trainStep ops p k rgb st
    let r2 := trainLoop ops p k rgb n r1.1
    (r2.1, r1.2 ++ r2.2)

/-- The per-batch body of `val` (lines 66-83): take the first batch
element's intrinsics, build the generator, initialize `g0` to the identity
and the working depth image / point cloud to the uncalibrated inputs, run
the inner loop, and feed the resulting `g0` and `igt` to
`geodesic_distance`.  Returns `((dR, dT), g0 after the loop, trace)`. -/
def valBatchG (ops : Ops P Img Depth PCD Twist Transform K)
    (sem : LossSem Depth PCD Transform) (p : P) (n : Nat) (grad : Bool)
    (b : Batch Img Depth PCD Transform K) :
    (ℚ × ℚ) × Transform × List (Event K) :=
  let k := b.InTran 0
  let g0 := ops.eye
  let r := valLoopG ops p grad k b.img n ⟨b.uncalibed_depth_img, b.uncalibed_pcd, g0⟩
  (sem.geo r.1.g0 b.igt, r.1.g0, r.2)

/-- The model's mutable state as `val` sees it: its parameter tensors and
the train/eval mode flag toggled by `model.train()` / `model.eval()`. -/
structure ModelState (P : Type) where
  params : P
  training : Bool

/-- Accumulation of `total_dR` and `total_dT` over the batches of the
validation loader (lines 65-84), concatenating the per-batch traces. -/
def valBatches (ops : Ops P Img Depth PCD Twist Transform K)
    (sem : LossSem Depth PCD Transform) (p : P) (n : Nat) (grad : Bool) :
    List (Batch Img Depth PCD Transform K) → (ℚ × ℚ) × List (Event K)
  | [] => ((0, 0), [])
  | b :: bs =>
    let r := valBatchG ops sem p n grad b
    let rest := valBatches ops sem p n grad bs
    ((r.1.1 + rest.1.1, r.1.2 + rest.1.2), r.2.2 ++ rest.2)

/-- The whole `val` function (lines 56-90): `model.eval()` clears the
training flag, the body runs under `@torch.no_grad()`, the per-batch
rotational and translational errors are averaged over the loader length
and returned as `(loss_dx, total_dR, total_dT)`.  Nothing in the body
writes to the model parameters. -/
def valRun (ops : Ops P Img Depth PCD Twist Transform K)
    (sem : LossSem Depth PCD Transform) (ms : ModelState P) (n : Nat)
    (batches : List (Batch Img Depth PCD Transform K)) :
    ModelState P × (ℚ × ℚ × ℚ) × List (Event K) :=
  let ms1 : ModelState P := { ms with training := false }
  let out := noGrad (fun grad =>
    let r := valBatches ops sem ms1.params n grad batches
    let len : ℚ := (batches.length : ℚ)
    let tR := r.1.1 / len
    let tT := r.1.2 / len
    ((tR + tT, tR, tT), r.2))
  (ms1, out)

/-- The call site of `val` inside `train` (line 162): only the model is
passed; the optimizer in the caller's scope is untouched by the call. -/
def valCall (ops : Ops P Img Depth PCD Twist Transform K)
    (sem : LossSem Depth PCD Transform) (n : Nat)
    (batches : List (Batch Img Depth PCD Transform K))
    (p : P) (o : O) (flag : Bool) : (P × O × Bool) × (ℚ × ℚ × ℚ) :=
  let r := valRun ops sem ⟨p, flag⟩ n batches
  ((r.1.params, o, r.1.training), r.2.1)

/-- The state of a constructed `Photo_Loss(scale)` object. -/
structure PhotoLoss where
  scale : ℚ
deriving DecidableEq, Repr

/-- The state of a constructed `ChamferDistanceLoss(scale, reduction)`
object. -/
structure ChamferLoss where
  scale : ℚ
  reduction : Reduction
deriving DecidableEq, Repr

/-- Construction of the two loss objects in `train` (lines 118-119):
`Photo_Loss(args.scale)` and `ChamferDistanceLoss(args.scale, sum)`. -/
def trainLossObjects (scale : ℚ) : PhotoLoss × ChamferLoss :=
  (⟨scale⟩, ⟨scale, Reduction.sum⟩)

/-- Calling a `Photo_Loss` object: forwards its stored scale. -/
def applyPhoto (sem : LossSem Depth PCD Transform) (pl : PhotoLoss)
    (ref cand : Depth) : ℚ :=
  sem.photo pl.scale ref cand

/-- Calling a `ChamferDistanceLoss` object: forwards its stored scale and
reduction. -/
def applyChamfer (sem : LossSem Depth PCD Transform) (cl : ChamferLoss)
    (ref cand : PCD) : ℚ :=
  sem.chamfer cl.scale cl.reduction ref cand

/-- The per-batch body of `train` (lines 131-149): first batch element's
intrinsics, inner refinement loop from the uncalibrated inputs, then
`loss = alpha * photo_loss(calibed_depth_img, uncalibed_depth_img)
      + beta * chamfer_loss(calibed_pcd, uncalibed_pcd)`
on the loop's final depth image and point cloud.  Returns
`(loss, (final depth, final pcd), trace)`. -/
def trainBatch (ops : Ops P Img Depth PCD Twist Transform K)
    (sem : LossSem Depth PCD Transform) (p : P)
    (pl : PhotoLoss) (cl : ChamferLoss) (n : Nat) (alpha beta : ℚ)
    (b : Batch Img Depth PCD Transform K) :
    ℚ × (Depth × PCD) × List (Event K) :=
  let k := b.InTran 0
  let r := trainLoop ops p k b.img n (b.uncalibed_depth_img, b.uncalibed_pcd)
  let loss1 := applyPhoto sem pl b.depth_img r.1.1
  let loss2 := applyChamfer sem cl b.pcd r.1.2
  (alpha * loss1 + beta * loss2, r.1, r.2)

/-- A Python float that is either `float(inf)` or a finite value, used for
`min_loss` (line 106 initializes it to infinity). -/
inductive LossVal where
  | inf
  | val (q : ℚ)
deriving DecidableEq, Repr

/-- `a < b` for a finite loss against a possibly infinite one (line 163's
comparison `loss_dx < min_loss`). -/
def LossVal.ltv (a : ℚ) : LossVal → Bool
  | .inf => true
  | .val q => decide (a < q)

/-- `a ≤ b` on possibly infinite loss values. -/
def LossVal.lev : LossVal → LossVal → Bool
  | _, .inf => true
  | .inf, .val _ => false
  | .val x, .val q => decide (x ≤ q)

/-- The checkpoint bundle written on lines 165-169 and 172-176: exactly the
model parameters, the optimizer state, the best-loss-so-far scalar and the
epoch index. -/
structure Checkpoint (P O : Type) where
  model : P
  optimizer : O
  min_loss : LossVal
  epoch : Nat
deriving DecidableEq, Repr

/-- A compute device as named by `args.device` / `torch.device`. -/
inductive Device where
  | cuda (idx : Nat)
  | cpu
deriving DecidableEq, Repr

/-- Observable outer-loop events of `train`: the one-time CPU fallback of
line 109 and the two checkpoint writes (`model_best.pth`, `model_last.pth`). -/
inductive RunEvent (P O : Type) where
  | deviceFallback
  | saveBest (c : Checkpoint P O)
  | saveLast (c : Checkpoint P O)
deriving DecidableEq, Repr

/-- Resume handling (lines 96-107): with a checkpoint, parameters and
optimizer state are loaded from it, training restarts at the saved epoch
plus one and `min_loss` is restored; otherwise a fresh start at epoch 0
with `min_loss = float(inf)`.  Returns
`(params, optimizer state, start epoch, min_loss)`. -/
def trainInit (resume : Option (Checkpoint P O)) (freshP : P) (freshO : O) :
    P × O × Nat × LossVal :=
  match resume with
  | some c => (c.model, c.optimizer, c.epoch + 1, c.min_loss)
  | none => (freshP, freshO, 0, LossVal.inf)

/-- The checkpoint tail of one epoch (lines 163-177): if the epoch's
validation `loss_dx` beats `min_loss`, update `min_loss` and write the
best checkpoint; then write the last checkpoint unconditionally, with the
current `min_loss` value.  Returns the new `min_loss` and the save events
in program order. -/
def epochCheckpoint (p : P) (o : O) (epoch : Nat) (loss_dx : ℚ)
    (min_loss : LossVal) : LossVal × List (RunEvent P O) :=
  if LossVal.ltv loss_dx min_loss then
    let m := LossVal.val loss_dx
    (m, [RunEvent.saveBest ⟨p, o, m, epoch⟩, RunEvent.saveLast ⟨p, o, m, epoch⟩])
  else
    (min_loss, [RunEvent.saveLast ⟨p, o, min_loss, epoch⟩])

/-- The epoch loop of `train` (lines 123-178) over an explicit list of
epoch indices, with the per-epoch training phase and validation abstracted
as `body` (lines 124-162: batch loop, scheduler step and `val` call,
producing the updated model/optimizer state and the epoch's `loss_dx`).
The device chosen before the loop is passed unchanged to every epoch. -/
def trainEpochsFold (body : Device → Nat → P × O → (P × O) × ℚ) (dev : Device) :
    List Nat → P × O → LossVal → (P × O) × LossVal × List (RunEvent P O)
  | [], st, ml => (st, ml, [])
  | e :: es, st, ml =>
    let r := body dev e st
    let c := epochCheckpoint r.1.1 r.1.2 e r.2 ml
    let rest := trainEpochsFold body dev es r.1 c.1
    (rest.1, rest.2.1, c.2 ++ rest.2.2)

/-- The `train` function's outer skeleton (lines 93-178): resume
initialization, then the single device-fallback decision of lines 108-111
(made once, before the epoch loop), then the epoch loop on
`range(start_epoch, args.epoch)`.  Returns the loop result together with
the full event trace and the device that was used throughout. -/
def trainRun (body : Device → Nat → P × O → (P × O) × ℚ)
    (resume : Option (Checkpoint P O)) (freshP : P) (freshO : O)
    (cudaAvailable : Bool) (argsDevice : Device) (argsEpoch : Nat) :
    ((P × O) × LossVal × List (RunEvent P O)) × Device :=
  let ini := trainInit resume freshP freshO
  let device := if cudaAvailable then argsDevice else Device.cpu
  let devEvs : List (RunEvent P O) :=
    if cudaAvailable then [] else [RunEvent.deviceFallback]
  let r := trainEpochsFold body device
    (List.range' ini.2.2.1 (argsEpoch - ini.2.2.1)) (ini.1, ini.2.1) ini.2.2.2
  ((r.1, r.2.1, devEvs ++ r.2.2), device)

/-- The `drop_last` policy of lines 205-206:
`True if len(dataset) % args.batch_size == 1 else False`. -/
def dropLastFlag (datasetLen batchSize : Nat) : Bool :=
  if datasetLen % batchSize == 1 then true else false

/-- The flags computed for the training and validation loaders
(lines 205-206), both from the same batch size. -/
def mainDropFlags (trainLen valLen batchSize : Nat) : Bool × Bool :=
  (dropLastFlag trainLen batchSize, dropLastFlag valLen batchSize)

/-- Batch sizes delivered by a PyTorch `DataLoader` over a dataset of the
given length: full batches of `batchSize`, plus the remainder batch when it
is nonempty and `drop` is off. -/
def loaderBatchSizes (datasetLen batchSize : Nat) (drop : Bool) : List Nat :=
  List.replicate (datasetLen / batchSize) batchSize ++
    (if !drop && datasetLen % batchSize != 0 then [datasetLen % batchSize] else [])

/-- A concrete instantiation of every collaborator over `Nat`, used to
evaluate the script's control flow on explicit inputs.  The transform type
is `Nat` with multiplication as `bmm` and `1` as the identity, so the
accumulated product of incremental transforms is directly observable. -/
def natOps : Ops Nat Nat Nat Nat Nat Nat Nat where
  model := fun _ _ _ d => d + 1
  se3exp := fun t => t + 1
  bmm := fun a b => a * b
  depthGen := fun _ tr pc => (tr + pc, tr + pc)
  eye := 1

/-- Concrete loss semantics over the `Nat` instantiation. -/
def natSem : LossSem Nat Nat Nat where
  photo := fun s _ _ => s + 1
  chamfer := fun s r _ _ => match r with | .sum => s + 2 | .mean => s + 3
  geo := fun g t => ((g : ℚ), (t : ℚ))

/-- A concrete batch over the `Nat` instantiation; `InTran i = i + 9`, so
the first element's intrinsics value `9` is distinguishable from every
other element's. -/
def natBatch : Batch Nat Nat Nat Nat Nat where
  img := 0
  depth_img := 0
  pcd := 0
  uncalibed_pcd := 0
  uncalibed_depth_img := 0
  igt := 0
  InTran := fun i => i + 9

section Lemmas

variable {P O Img Depth PCD Twist Transform K : Type}

/-- The stored accumulated transform is returned unchanged by every inner
iteration of `val`: the `bmm` result of line 79 is discarded. -/
theorem valLoopG_g0 (ops : Ops P Img Depth PCD Twist Transform K) (p : P)
    (g : Bool) (k : K) (rgb : Img) (n : Nat)
    (st : IterState Depth PCD Transform) :
    (valLoopG ops p g k rgb n st).1.g0 = st.g0 := by
  induction n generalizing st with
  | zero => rfl
  | succ n ih => simpa [valLoopG, valStepG] using ih _

/-- The event trace of `val`'s inner loop: each of the `n` iterations emits
predict, exponential map, reproject, in order. -/
theorem valLoopG_trace (ops : Ops P Img Depth PCD Twist Transform K) (p : P)
    (g : Bool) (k : K) (rgb : Img) (n : Nat)
    (st : IterState Depth PCD Transform) :
    (valLoopG ops p g k rgb n st).2 =
      (List.replicate n [Event.predict g, Event.expMap, Event.reproject k]).flatten := by
  induction n generalizing st with
  | zero => rfl
  | succ n ih => simp [valLoopG, valStepG, List.replicate_succ, ih]

/-- The event trace of `train`'s inner loop. -/
theorem trainLoop_trace (ops : Ops P Img Depth PCD Twist Transform K) (p : P)
    (k : K) (rgb : Img) (n : Nat) (st : Depth × PCD) :
    (trainLoop ops p k rgb n st).2 =
      (List.replicate n [Event.predict true, Event.expMap, Event.reproject k]).flatten := by
  induction n generalizing st with
  | zero => rfl
  | succ n ih => simp [trainLoop, trainStep, List.replicate_succ, ih]

/-- `lev` is reflexive. -/
theorem LossVal.lev_refl (a : LossVal) : LossVal.lev a a = true := by
  cases a <;> simp [LossVal.lev]

/-- `lev` is transitive. -/
theorem LossVal.lev_trans {a b c : LossVal} (h1 : LossVal.lev a b = true)
    (h2 : LossVal.lev b c = true) : LossVal.lev a c = true := by
  cases a <;> cases b <;> cases c <;> simp [LossVal.lev] at *
  exact le_trans h1 h2

/-- One epoch's checkpoint tail never increases `min_loss`. -/
theorem epochCheckpoint_min_lev (p : P) (o : O) (e : Nat) (dx : ℚ)
    (ml : LossVal) :
    LossVal.lev (epochCheckpoint p o e dx ml).1 ml = true := by
  cases ml with
  | inf => simp [epochCheckpoint, LossVal.ltv, LossVal.lev]
  | val q =>
    by_cases h : dx < q
    · simp [epochCheckpoint, LossVal.ltv, LossVal.lev, h, le_of_lt h]
    · simp [epochCheckpoint, LossVal.ltv, LossVal.lev, h]

/-- Across any run of the epoch loop, `min_loss` never increases. -/
theorem trainEpochsFold_min_lev (body : Device → Nat → P × O → (P × O) × ℚ)
    (dev : Device) (es : List Nat) (st : P × O) (ml : LossVal) :
    LossVal.lev (trainEpochsFold body dev es st ml).2.1 ml = true := by
  induction es generalizing st ml with
  | nil => exact LossVal.lev_refl ml
  | cons e es ih =>
    exact LossVal.lev_trans (ih _ _) (epochCheckpoint_min_lev _ _ _ _ _)

/-- The checkpoint tail emits only save events, never a device fallback. -/
theorem epochCheckpoint_no_fallback (p : P) (o : O) (e : Nat) (dx : ℚ)
    (ml : LossVal) :
    RunEvent.deviceFallback ∉ (epochCheckpoint p o e dx ml).2 := by
  by_cases h : LossVal.ltv dx ml <;> simp [epochCheckpoint, h]

/-- The epoch loop emits only save events, never a device fallback. -/
theorem trainEpochsFold_no_fallback (body : Device → Nat → P × O → (P × O) × ℚ)
    (dev : Device) (es : List Nat) (st : P × O) (ml : LossVal) :
    RunEvent.deviceFallback ∉ (trainEpochsFold body dev es st ml).2.2 := by
  induction es generalizing st ml with
  | nil => simp [trainEpochsFold]
  | cons e es ih =>
    simp only [trainEpochsFold, List.mem_append]
    push_neg
    exact ⟨epochCheckpoint_no_fallback _ _ _ _ _, ih _ _⟩

/-- Membership in a flattened replicate collapses to membership in the
replicated block. -/
theorem mem_flatten_replicate {α : Type} {x : α} {n : Nat} {l : List α}
    (h : x ∈ (List.replicate n l).flatten) : x ∈ l := by
  rcases List.mem_flatten.1 h with ⟨s, hs, hx⟩
  rwa [List.eq_of_mem_replicate hs] at hx

/-- Every event emitted by `val`'s inner loop is one of the three events of
a single iteration. -/
theorem valLoopG_trace_mem (ops : Ops P Img Depth PCD Twist Transform K)
    (p : P) (g : Bool) (k : K) (rgb : Img) (n : Nat)
    (st : IterState Depth PCD Transform) {e : Event K}
    (h : e ∈ (valLoopG ops p g k rgb n st).2) :
    e ∈ [Event.predict g, Event.expMap, Event.reproject k] := by
  rw [valLoopG_trace] at h
  exact mem_flatten_replicate h

/-- Every event emitted by `train`'s inner loop is one of the three events
of a single iteration. -/
theorem trainLoop_trace_mem (ops : Ops P Img Depth PCD Twist Transform K)
    (p : P) (k : K) (rgb : Img) (n : Nat) (st : Depth × PCD) {e : Event K}
    (h : e ∈ (trainLoop ops p k rgb n st).2) :
    e ∈ [Event.predict true, Event.expMap, Event.reproject k] := by
  rw [trainLoop_trace] at h
  exact mem_flatten_replicate h

/-- Every network call recorded over the batches of `val` carries the
ambient autograd mode the loop was run under. -/
theorem valBatches_predict (ops : Ops P Img Depth PCD Twist Transform K)
    (sem : LossSem Depth PCD Transform) (p : P) (n : Nat) (grad : Bool)
    (bs : List (Batch Img Depth PCD Transform K)) (g : Bool)
    (h : Event.predict g ∈ (valBatches ops sem p n grad bs).2) : g = grad := by
  induction bs with
  | nil => simp [valBatches] at h
  | cons b bs ih =>
    rcases List.mem_append.1 h with h1 | h1
    · have h2 := valLoopG_trace_mem ops p grad (b.InTran 0) b.img n
        ⟨b.uncalibed_depth_img, b.uncalibed_pcd, ops.eye⟩ h1
      simpa using h2
    · exact ih h1

/-- The `drop_last` flag of lines 205-206 is set exactly when the dataset
length is congruent to 1 modulo the batch size. -/
theorem dropLastFlag_iff (len bs : Nat) :
    dropLastFlag len bs = true ↔ len % bs = 1 := by
  by_cases h : len % bs = 1 <;> simp [dropLastFlag, h]

/-- With a batch size of at least 2 and the script's `drop_last` policy, no
delivered batch has size 1. -/
theorem loaderBatchSizes_no_one (len bs : Nat) (hbs : 2 ≤ bs) :
    ∀ s ∈ loaderBatchSizes len bs (dropLastFlag len bs), s ≠ 1 := by
  intro s hs
  rcases List.mem_append.1 hs with h | h
  · have := List.eq_of_mem_replicate h
    omega
  · by_cases hd : dropLastFlag len bs
    · simp [hd] at h
    · have h1 : len % bs ≠ 1 := fun hc => hd ((dropLastFlag_iff len bs).2 hc)
      by_cases h0 : len % bs = 0
      · simp [hd, h0] at h
      · have h2 : s = len % bs := by
          simpa [hd, h0] using h
        omega

end Lemmas

section Claims

variable {P O Img Depth PCD Twist Transform K : Type}

/-- C1: the claim says `g0` equals the ordered right-multiplied product of
the per-iteration incremental transforms.  In the code, line 79 reads
`g0.bmm(extran)` without assigning the result, so `g0` is never updated:
for every run of the inner loop the `g0` handed to `geodesic_distance` is
still the initial identity, while the spec's Compose rule
(`valLoopCompose`) would produce the accumulated product — here `2` against
the identity `1` after a single iteration of the concrete instantiation. -/
theorem g0_never_accumulates :
    (∀ (Q I D C T Tr KK : Type) (ops : Ops Q I D C T Tr KK) (p : Q) (g : Bool)
        (k : KK) (rgb : I) (n : Nat) (st : IterState D C Tr),
        (valLoopG ops p g k rgb n st).1.g0 = st.g0)
    ∧ (valLoopG natOps 0 false 9 0 1 ⟨0, 0, natOps.eye⟩).1.g0 = natOps.eye
    ∧ (valLoopCompose natOps 0 false 9 0 1 ⟨0, 0, natOps.eye⟩).g0 = 2
    ∧ natOps.eye ≠ 2 := by
  refine ⟨fun Q I D C T Tr KK ops p g k rgb n st => valLoopG_g0 ops p g k rgb n st,
    ?_, ?_, ?_⟩ <;> decide

/-- C2: each refinement run executes exactly `args.inner_iter` inner
iterations, each one predict, then exponential map, then reprojection, in
that order; `val` starts the loop from the uncalibrated depth image and
point cloud with `g0` the identity and hands the loop's `g0` to
`geodesic_distance`; `train` starts from the uncalibrated inputs and feeds
the loop's final depth image and point cloud to the two losses. -/
theorem inner_loop_fixed_iterations (ops : Ops P Img Depth PCD Twist Transform K)
    (sem : LossSem Depth PCD Transform) (p : P) (n : Nat) (g : Bool)
    (pl : PhotoLoss) (cl : ChamferLoss) (alpha beta : ℚ)
    (b : Batch Img Depth PCD Transform K) :
    valBatchG ops sem p n g b =
      (let r := valLoopG ops p g (b.InTran 0) b.img n
          ⟨b.uncalibed_depth_img, b.uncalibed_pcd, ops.eye⟩
       (sem.geo r.1.g0 b.igt, r.1.g0, r.2))
    ∧ (∀ st, (valLoopG ops p g (b.InTran 0) b.img n st).2
        = (List.replicate n
            [Event.predict g, Event.expMap, Event.reproject (b.InTran 0)]).flatten)
    ∧ (∀ st, (trainLoop ops p (b.InTran 0) b.img n st).2
        = (List.replicate n
            [Event.predict true, Event.expMap, Event.reproject (b.InTran 0)]).flatten)
    ∧ trainBatch ops sem p pl cl n alpha beta b =
      (let r := trainLoop ops p (b.InTran 0) b.img n
          (b.uncalibed_depth_img, b.uncalibed_pcd)
       (alpha * applyPhoto sem pl b.depth_img r.1.1
          + beta * applyChamfer sem cl b.pcd r.1.2, r.1, r.2)) := by
  refine ⟨rfl, fun st => valLoopG_trace ops p g _ b.img n st,
    fun st => trainLoop_trace ops p _ b.img n st, rfl⟩

/-- C3: each inner iteration applies only the current incremental transform
(the exponential of that iteration's predicted twist) to the running point
cloud: the updated depth image and point cloud are exactly the depth
generator applied with that incremental transform, and they do not depend
on the accumulated transform at all; likewise in `train`, where no
accumulated transform even exists. -/
theorem incremental_transform_only (ops : Ops P Img Depth PCD Twist Transform K)
    (p : P) (g : Bool) (k : K) (rgb : Img) (d : Depth) (pc : PCD)
    (g0 g0' : Transform) :
    (valStepG ops p g k rgb ⟨d, pc, g0⟩).1.depth
        = (ops.depthGen k (ops.se3exp (ops.model p g rgb d)) pc).1
    ∧ (valStepG ops p g k rgb ⟨d, pc, g0⟩).1.pcd
        = (ops.depthGen k (ops.se3exp (ops.model p g rgb d)) pc).2
    ∧ (valStepG ops p g k rgb ⟨d, pc, g0⟩).1.depth
        = (valStepG ops p g k rgb ⟨d, pc, g0'⟩).1.depth
    ∧ (valStepG ops p g k rgb ⟨d, pc, g0⟩).1.pcd
        = (valStepG ops p g k rgb ⟨d, pc, g0'⟩).1.pcd
    ∧ (trainStep ops p k rgb (d, pc)).1
        = ops.depthGen k (ops.se3exp (ops.model p true rgb d)) pc := by
  exact ⟨rfl, rfl, rfl, rfl, rfl⟩

/-- C4: for every training batch, the backpropagated scalar loss is
`alpha` times the photometric loss between the calibrated depth image and
the final reprojected depth image plus `beta` times the chamfer loss
between the calibrated point cloud and the final transformed point cloud;
the two loss objects of lines 118-119 carry the same scale factor and the
chamfer object carries the sum reduction. -/
theorem train_loss_combination (ops : Ops P Img Depth PCD Twist Transform K)
    (sem : LossSem Depth PCD Transform) (p : P) (n : Nat)
    (alpha beta scale : ℚ) (b : Batch Img Depth PCD Transform K) :
    (trainLossObjects scale).1.scale = (trainLossObjects scale).2.scale
    ∧ (trainLossObjects scale).2.reduction = Reduction.sum
    ∧ (trainBatch ops sem p (trainLossObjects scale).1 (trainLossObjects scale).2
        n alpha beta b).1
      = alpha * sem.photo scale b.depth_img
          (trainLoop ops p (b.InTran 0) b.img n
            (b.uncalibed_depth_img, b.uncalibed_pcd)).1.1
        + beta * sem.chamfer scale Reduction.sum b.pcd
          (trainLoop ops p (b.InTran 0) b.img n
            (b.uncalibed_depth_img, b.uncalibed_pcd)).1.2 := by
  exact ⟨rfl, rfl, rfl⟩

/-- C5: the geodesic pose error of validation is never backpropagated: the
`val` call of line 162 returns the model parameters and the optimizer state
of the caller untouched, and every network call inside `val` runs with
gradient recording disabled (the whole body sits under `@torch.no_grad()`). -/
theorem val_reads_only (ops : Ops P Img Depth PCD Twist Transform K)
    (sem : LossSem Depth PCD Transform) (n : Nat)
    (batches : List (Batch Img Depth PCD Transform K)) (p : P) (o : O)
    (flag : Bool) :
    (valCall ops sem n batches p o flag).1.1 = p
    ∧ (valCall ops sem n batches p o flag).1.2.1 = o
    ∧ (∀ g, Event.predict g ∈ (valRun ops sem ⟨p, flag⟩ n batches).2.2 →
        g = false) := by
  refine ⟨rfl, rfl, fun g h => ?_⟩
  exact valBatches_predict ops sem p n false batches g h

/-- C6: the checkpoint written each epoch bundles exactly the model
parameters, the optimizer state, the best-loss-so-far scalar and the epoch
index (both the best and the last file of lines 165-177 carry the current
values), and resuming from a checkpoint restarts at the saved epoch plus
one with the saved best loss restored as `min_loss`. -/
theorem checkpoint_bundle_roundtrip (p : P) (o : O) (e : Nat) (dx : ℚ)
    (ml : LossVal) (fp : P) (fo : O) :
    (∀ c : Checkpoint P O, RunEvent.saveBest c ∈ (epochCheckpoint p o e dx ml).2 →
        c.model = p ∧ c.optimizer = o ∧ c.epoch = e
          ∧ c.min_loss = (epochCheckpoint p o e dx ml).1)
    ∧ (∀ c : Checkpoint P O, RunEvent.saveLast c ∈ (epochCheckpoint p o e dx ml).2 →
        c.model = p ∧ c.optimizer = o ∧ c.epoch = e
          ∧ c.min_loss = (epochCheckpoint p o e dx ml).1)
    ∧ (∀ c : Checkpoint P O, trainInit (some c) fp fo
        = (c.model, c.optimizer, c.epoch + 1, c.min_loss)) := by
  refine ⟨fun c hc => ?_, fun c hc => ?_, fun c => rfl⟩
  · by_cases h : LossVal.ltv dx ml <;> simp [epochCheckpoint, h] at hc ⊢
    subst hc
    exact ⟨rfl, rfl, rfl, rfl⟩
  · by_cases h : LossVal.ltv dx ml <;> simp [epochCheckpoint, h] at hc ⊢ <;>
      subst hc <;> exact ⟨rfl, rfl, rfl, rfl⟩

/-- C7: in both training and validation, the intrinsics the depth-image
generator is built from are the first batch element's, and every
reprojection of every inner iteration of the batch uses those same
intrinsics. -/
theorem intrinsics_first_element (ops : Ops P Img Depth PCD Twist Transform K)
    (sem : LossSem Depth PCD Transform) (p : P) (n : Nat) (g : Bool)
    (pl : PhotoLoss) (cl : ChamferLoss) (alpha beta : ℚ)
    (b : Batch Img Depth PCD Transform K) :
    (∀ k, Event.reproject k ∈ (valBatchG ops sem p n g b).2.2 → k = b.InTran 0)
    ∧ (∀ k, Event.reproject k ∈ (trainBatch ops sem p pl cl n alpha beta b).2.2 →
        k = b.InTran 0) := by
  constructor
  · intro k h
    have h2 := valLoopG_trace_mem ops p g (b.InTran 0) b.img n
      ⟨b.uncalibed_depth_img, b.uncalibed_pcd, ops.eye⟩ h
    simpa using h2
  · intro k h
    have h2 := trainLoop_trace_mem ops p (b.InTran 0) b.img n
      (b.uncalibed_depth_img, b.uncalibed_pcd) h
    simpa using h2

/-- C8: when CUDA is unavailable the device is switched to CPU exactly
once, before the epoch loop: the device used throughout is the single
upfront choice, the fallback event appears (once) only at the head of the
run trace, the epoch loop itself never emits a fallback, and the whole run
behaves exactly as a run started directly on the resolved device —
availability influences nothing inside the loop or the losses. -/
theorem device_fallback_once_upfront (body : Device → Nat → P × O → (P × O) × ℚ)
    (resume : Option (Checkpoint P O)) (fp : P) (fo : O) (avail : Bool)
    (dev : Device) (ne : Nat) :
    (let ini := trainInit resume fp fo
     let d := if avail then dev else Device.cpu
     let fold := trainEpochsFold body d (List.range' ini.2.2.1 (ne - ini.2.2.1))
       (ini.1, ini.2.1) ini.2.2.2
     (trainRun body resume fp fo avail dev ne).2 = d
     ∧ (trainRun body resume fp fo avail dev ne).1.2.2
        = (if avail then ([] : List (RunEvent P O)) else [RunEvent.deviceFallback])
          ++ fold.2.2
     ∧ RunEvent.deviceFallback ∉ fold.2.2
     ∧ (trainRun body resume fp fo avail dev ne).1.1
        = (trainRun body resume fp fo true d ne).1.1
     ∧ (trainRun body resume fp fo avail dev ne).1.2.1
        = (trainRun body resume fp fo true d ne).1.2.1) := by
  refine ⟨rfl, ?_, trainEpochsFold_no_fallback _ _ _ _ _, ?_, ?_⟩ <;>
    cases avail <;> rfl

/-- C9: `min_loss` never increases, neither in one epoch's checkpoint tail
nor across a whole run of the epoch loop; the best checkpoint is written in
an epoch exactly when that epoch's `loss_dx` is strictly below the previous
minimum; the last checkpoint is written unconditionally every epoch. -/
theorem min_loss_monotone_save_policy (body : Device → Nat → P × O → (P × O) × ℚ)
    (dev : Device) (es : List Nat) (st : P × O) (p : P) (o : O) (e : Nat)
    (dx : ℚ) (ml : LossVal) :
    LossVal.lev (epochCheckpoint p o e dx ml).1 ml = true
    ∧ LossVal.lev (trainEpochsFold body dev es st ml).2.1 ml = true
    ∧ ((∃ c, RunEvent.saveBest c ∈ (epochCheckpoint p o e dx ml).2)
        ↔ LossVal.ltv dx ml = true)
    ∧ (∃ c, RunEvent.saveLast c ∈ (epochCheckpoint p o e dx ml).2) := by
  refine ⟨epochCheckpoint_min_lev p o e dx ml,
    trainEpochsFold_min_lev body dev es st ml, ?_, ?_⟩
  · by_cases h : LossVal.ltv dx ml <;> simp [epochCheckpoint, h]
  · by_cases h : LossVal.ltv dx ml <;> simp [epochCheckpoint, h]

/-- C10, counterexample: the claim concludes that no batch of size 1 is
ever delivered, but with batch size 1 the dataset length is never
congruent to 1 modulo the batch size, so the last batch is not dropped and
every delivered batch has size 1 — here the training loader with 3 samples
and batch size 1. -/
theorem size_one_batch_delivered :
    (mainDropFlags 3 3 1).1 = false
    ∧ 1 ∈ loaderBatchSizes 3 1 (mainDropFlags 3 3 1).1 := by
  decide

/-- C10, amended: for both loaders the last batch is dropped exactly when
the dataset length is congruent to 1 modulo the batch size, and — whenever
the batch size is at least 2 — no delivered batch has size 1. -/
theorem drop_last_policy (trainLen valLen bs : Nat) :
    ((mainDropFlags trainLen valLen bs).1 = true ↔ trainLen % bs = 1)
    ∧ ((mainDropFlags trainLen valLen bs).2 = true ↔ valLen % bs = 1)
    ∧ (2 ≤ bs →
        (∀ s ∈ loaderBatchSizes trainLen bs (mainDropFlags trainLen valLen bs).1,
          s ≠ 1)
        ∧ (∀ s ∈ loaderBatchSizes valLen bs (mainDropFlags trainLen valLen bs).2,
          s ≠ 1)) := by
  refine ⟨dropLastFlag_iff trainLen bs, dropLastFlag_iff valLen bs,
    fun hbs => ⟨loaderBatchSizes_no_one trainLen bs hbs,
      loaderBatchSizes_no_one valLen bs hbs⟩⟩

/-- Witness for C5 at the concrete instantiation: the trace of a
one-iteration validation run over one batch contains a network call, and
that call carries autograd mode `false`. -/
theorem val_reads_only_witness :
    Event.predict false ∈ (valRun natOps natSem ⟨3, true⟩ 1 [natBatch]).2.2
    ∧ false = false := by
  have hm : Event.predict false ∈ (valRun natOps natSem ⟨3, true⟩ 1 [natBatch]).2.2 := by
    decide
  exact ⟨hm, (val_reads_only natOps natSem 1 [natBatch] 3 5 true).2.2 false hm⟩

/-- Witness for C6 at concrete values: an improving epoch writes a best
checkpoint holding exactly the current parameters, optimizer state,
minimum and epoch index, and resuming from it restores them with the epoch
advanced by one. -/
theorem checkpoint_bundle_roundtrip_witness :
    RunEvent.saveBest (⟨5, 7, LossVal.val 2, 3⟩ : Checkpoint Nat Nat)
        ∈ (epochCheckpoint 5 7 3 (2 : ℚ) LossVal.inf).2
    ∧ ((⟨5, 7, LossVal.val 2, 3⟩ : Checkpoint Nat Nat).model = 5
        ∧ (⟨5, 7, LossVal.val 2, 3⟩ : Checkpoint Nat Nat).optimizer = 7
        ∧ (⟨5, 7, LossVal.val 2, 3⟩ : Checkpoint Nat Nat).epoch = 3
        ∧ (⟨5, 7, LossVal.val 2, 3⟩ : Checkpoint Nat Nat).min_loss
            = (epochCheckpoint 5 7 3 (2 : ℚ) LossVal.inf).1)
    ∧ trainInit (some (⟨5, 7, LossVal.val 2, 3⟩ : Checkpoint Nat Nat)) 0 0
        = (5, 7, 4, LossVal.val 2) := by
  have hm : RunEvent.saveBest (⟨5, 7, LossVal.val 2, 3⟩ : Checkpoint Nat Nat)
      ∈ (epochCheckpoint 5 7 3 (2 : ℚ) LossVal.inf).2 := by decide
  refine ⟨hm, (checkpoint_bundle_roundtrip 5 7 3 (2 : ℚ) LossVal.inf 0 0).1 _ hm, ?_⟩
  exact (checkpoint_bundle_roundtrip 5 7 3 (2 : ℚ) LossVal.inf 0 0).2.2
    ⟨5, 7, LossVal.val 2, 3⟩

/-- Witness for C7 at the concrete instantiation: the one reprojection of
a one-iteration validation batch uses intrinsics `9 = natBatch.InTran 0`. -/
theorem intrinsics_first_element_witness :
    Event.reproject 9 ∈ (valBatchG natOps natSem 3 1 false natBatch).2.2
    ∧ 9 = natBatch.InTran 0 := by
  have hm : Event.reproject 9 ∈ (valBatchG natOps natSem 3 1 false natBatch).2.2 := by
    decide
  exact ⟨hm,
    (intrinsics_first_element natOps natSem 3 1 false ⟨1⟩ ⟨1, Reduction.sum⟩ 1 1
      natBatch).1 9 hm⟩

/-- Witness for C8 at concrete values: a run with CUDA unavailable resolves
to the CPU device and its epoch loop emits no fallback event. -/
theorem device_fallback_once_upfront_witness :
    (trainRun (fun _ _ st => (st, (1 : ℚ))) (none : Option (Checkpoint Nat Nat))
        0 0 false (Device.cuda 0) 1).2 = Device.cpu
    ∧ RunEvent.deviceFallback ∉ (trainEpochsFold (fun _ _ st => (st, (1 : ℚ)))
        Device.cpu (List.range' 0 1) ((0 : Nat), (0 : Nat)) LossVal.inf).2.2 := by
  exact ⟨(device_fallback_once_upfront (fun _ _ st => (st, (1 : ℚ))) none 0 0 false
      (Device.cuda 0) 1).1,
    (device_fallback_once_upfront (fun _ _ st => (st, (1 : ℚ))) none 0 0 false
      (Device.cuda 0) 1).2.2.1⟩

/-- Witness for C10 at concrete values: batch size 2 with 5 training and 4
validation samples — the training loader drops its last batch, and no
delivered batch of either loader has size 1. -/
theorem drop_last_policy_witness :
    2 ≤ 2
    ∧ (∀ s ∈ loaderBatchSizes 5 2 (mainDropFlags 5 4 2).1, s ≠ 1)
    ∧ (∀ s ∈ loaderBatchSizes 4 2 (mainDropFlags 5 4 2).2, s ≠ 1) := by
  refine ⟨by decide, ?_, ?_⟩
  · exact ((drop_last_policy 5 4 2).2.2 (by decide)).1
  · exact ((drop_last_policy 5 4 2).2.2 (by decide)).2

end Claims

end CalibNetTrain
